import Mathlib

/-!
Shallow embedding of `src/mini-apps/templates/farcaster-sdk/mini-app-full-demo/
src/components/actions/request-spend-permission.tsx` (the "spend permission"
component). The form state of the component, the `handleRequest` callback, the two
`useEffect` synchronizations with wagmi, and the `disabled`/label
logic of the button are embedded as pure Lean functions; the external SDK call
`requestSpendPermission` is modelled by its outcome (the promise resolves with
a response or rejects with a thrown JS value), and `JSON.stringify(_, null, 2)`
by an abstract serialization function, since both are owned by third-party
code. JavaScript `Number(string)` and `BigInt(string)` coercion semantics are
embedded concretely (exact rational values; IEEE-754 rounding of `Number` is
not modelled, which no claim depends on).
-/

namespace SpendPermissionDemo

/-- A JavaScript `number` as relevant here: `NaN`, signed infinity, or an exact
rational value (IEEE-754 rounding abstracted away). -/
inductive JSNum where
  | nan : JSNum
  | inf : Bool → JSNum
  | val : ℚ → JSNum
deriving DecidableEq

/-- JS falsiness of a number: `NaN`, `0` and `-0` are falsy. -/
def jsFalsy : JSNum → Bool
  | JSNum.nan => true
  | JSNum.inf _ => false
  | JSNum.val q => q == 0

/-- JS `a || b` on numbers: `b` when `a` is falsy, else `a`. -/
def jsOrNum (a b : JSNum) : JSNum := if jsFalsy a then b else a

/-- A value thrown in JS, as far as the component inspects it:
either an `Error` instance carrying `err.message`, or anything else. -/
inductive JsThrown where
  | error : String → JsThrown
  | nonError : JsThrown
deriving DecidableEq

/-- JS whitespace characters stripped by `Number`/`BigInt` string coercion. -/
def isJsWhite (c : Char) : Bool :=
  c == ' ' || c == '\t' || c == '\n' || c == '\r' || c == '\x0b' || c == '\x0c'

/-- Strip leading and trailing JS whitespace. -/
def jsTrim (cs : List Char) : List Char :=
  ((cs.dropWhile isJsWhite).reverse.dropWhile isJsWhite).reverse

/-- Value of a digit string in base `b` under digit valuation `v`. -/
def natOfDigitsBase (b : Nat) (v : Char → Nat) (ds : List Char) : Nat :=
  ds.foldl (fun a c => a * b + v c) 0

/-- Decimal digit value. -/
def decDigitVal (c : Char) : Nat := c.toNat - 48

/-- Hexadecimal digit recognizer. -/
def isHexDigitCh (c : Char) : Bool :=
  c.isDigit || ('a' ≤ c && c ≤ 'f') || ('A' ≤ c && c ≤ 'F')

/-- Hexadecimal digit value. -/
def hexDigitVal (c : Char) : Nat :=
  if c.isDigit then c.toNat - 48
  else if 'a' ≤ c && c ≤ 'f' then c.toNat - 87
  else c.toNat - 55

/-- Octal digit recognizer. -/
def isOctDigitCh (c : Char) : Bool := '0' ≤ c && c ≤ '7'

/-- Binary digit recognizer. -/
def isBinDigitCh (c : Char) : Bool := c == '0' || c == '1'

/-- Parse a whole string of digits in base `b`; `none` when empty or any
character is not a digit of that base. -/
def parseRadixNat (isDig : Char → Bool) (v : Char → Nat) (b : Nat)
    (cs : List Char) : Option Nat :=
  if !cs.isEmpty && cs.all isDig then some (natOfDigitsBase b v cs) else none

/-- Parse the digits of an exponent (after the optional sign) as an integer. -/
def parseExpDigits (neg : Bool) (cs : List Char) : Option ℤ :=
  if !cs.isEmpty && cs.all Char.isDigit then
    some (if neg then -(natOfDigitsBase 10 decDigitVal cs : ℤ)
          else (natOfDigitsBase 10 decDigitVal cs : ℤ))
  else none

/-- Parse the optional exponent part of a JS decimal literal
(`e`/`E`, optional sign, digits); `some 0` on empty input,
`none` on trailing garbage. -/
def parseExpPart : List Char → Option ℤ
  | [] => some 0
  | c :: rest =>
      if c == 'e' || c == 'E' then
        match rest with
        | '+' :: r => parseExpDigits false r
        | '-' :: r => parseExpDigits true r
        | r => parseExpDigits false r
      else none

/-- Parse an unsigned JS decimal literal (`digits`, `digits.digits`,
`.digits`, optional exponent) to an exact rational; `none` when malformed. -/
def parseDecQ (cs : List Char) : Option ℚ :=
  let ip := cs.takeWhile Char.isDigit
  let r1 := cs.drop ip.length
  match r1 with
  | '.' :: r2 =>
      let fp := r2.takeWhile Char.isDigit
      let r3 := r2.drop fp.length
      if ip.isEmpty && fp.isEmpty then none
      else (parseExpPart r3).map fun e =>
        ((natOfDigitsBase 10 decDigitVal (ip ++ fp) : ℚ) / (10 : ℚ) ^ fp.length)
          * (10 : ℚ) ^ e
  | _ =>
      if ip.isEmpty then none
      else (parseExpPart r1).map fun e =>
        (natOfDigitsBase 10 decDigitVal ip : ℚ) * (10 : ℚ) ^ e

/-- Body of a signed JS `Number` literal: `Infinity` or a decimal literal;
anything else is `NaN`. -/
def jsNumberSigned (neg : Bool) (body : List Char) : JSNum :=
  if body == ['I', 'n', 'f', 'i', 'n', 'i', 't', 'y'] then JSNum.inf neg
  else
    match parseDecQ body with
    | some q => JSNum.val (if neg then -q else q)
    | none => JSNum.nan

/-- JS `Number(string)` on a trimmed character list: empty is `0`; a sign may
precede `Infinity` or a decimal literal; unsigned `0x`/`0o`/`0b` literals are
accepted; anything else is `NaN`. -/
def jsNumberCore : List Char → JSNum
  | [] => JSNum.val 0
  | '+' :: r => jsNumberSigned false r
  | '-' :: r => jsNumberSigned true r
  | '0' :: c :: rest =>
      if c == 'x' || c == 'X' then
        match parseRadixNat isHexDigitCh hexDigitVal 16 rest with
        | some n => JSNum.val n
        | none => JSNum.nan
      else if c == 'o' || c == 'O' then
        match parseRadixNat isOctDigitCh decDigitVal 8 rest with
        | some n => JSNum.val n
        | none => JSNum.nan
      else if c == 'b' || c == 'B' then
        match parseRadixNat isBinDigitCh decDigitVal 2 rest with
        | some n => JSNum.val n
        | none => JSNum.nan
      else jsNumberSigned false ('0' :: c :: rest)
  | cs => jsNumberSigned false cs

/-- JS `Number(string)`: trim JS whitespace, then parse. Never throws. -/
def jsNumber (s : String) : JSNum := jsNumberCore (jsTrim s.data)

/-- The `SyntaxError` message thrown by `BigInt(string)` on a malformed
string (a JS `Error` instance, so `err.message` is used by the component). -/
def bigIntErrMsg (s : String) : String := "Cannot convert " ++ s ++ " to a BigInt"

/-- Signed decimal body of a JS `BigInt` literal. -/
def jsBigIntDec (neg : Bool) (cs : List Char) : Option ℤ :=
  if !cs.isEmpty && cs.all Char.isDigit then
    some (if neg then -(natOfDigitsBase 10 decDigitVal cs : ℤ)
          else (natOfDigitsBase 10 decDigitVal cs : ℤ))
  else none

/-- JS `BigInt(string)` on a trimmed character list: empty is `0n`; optional
sign with decimal digits, or unsigned `0x`/`0o`/`0b` digits; `none` means the
coercion throws a `SyntaxError` (e.g. on `"abc"` or `"1.5"`). -/
def jsBigIntCore : List Char → Option ℤ
  | [] => some 0
  | '+' :: rest => jsBigIntDec false rest
  | '-' :: rest => jsBigIntDec true rest
  | '0' :: c :: rest =>
      if c == 'x' || c == 'X' then
        (parseRadixNat isHexDigitCh hexDigitVal 16 rest).map Int.ofNat
      else if c == 'o' || c == 'O' then
        (parseRadixNat isOctDigitCh decDigitVal 8 rest).map Int.ofNat
      else if c == 'b' || c == 'B' then
        (parseRadixNat isBinDigitCh decDigitVal 2 rest).map Int.ofNat
      else jsBigIntDec false ('0' :: c :: rest)
  | cs => jsBigIntDec false cs

/-- JS `BigInt(string)`: returns the integer, or throws a `SyntaxError`
(an `Error` whose message the component would display). -/
def jsBigIntStr (s : String) : Except JsThrown ℤ :=
  match jsBigIntCore (jsTrim s.data) with
  | some n => Except.ok n
  | none => Except.error (JsThrown.error (bigIntErrMsg s))

/-- Constant `base.id` from `viem/chains`: the Base chain id. -/
def baseId : Nat := 8453

/-- Constant `DEFAULT_SPENDER` of the component (the Vitalik address). -/
def DEFAULT_SPENDER : String := "0xd8dA6BF26964aF9D7eEd9e03E53415D37aA96045"

/-- Constant `DEFAULT_TOKEN` of the component (Base USDC). -/
def DEFAULT_TOKEN : String := "0x833589fCD6eDb6E08f4c7C32D4f71b54bdA02913"

/-- The `useState` variables of the component: six controlled form-field strings,
the two display states (`permission`, `error`, JS `string | null`), and the
`loading` flag. -/
structure ComponentState where
  account : String
  spender : String
  token : String
  chainId : String
  allowance : String
  periodInDays : String
  permission : Option String
  error : Option String
  loading : Bool
deriving DecidableEq

/-- The argument object built by `handleRequest` and passed to the external
`requestSpendPermission` (the `provider` field, `sdk.getProvider()`, carries
no component state and is omitted). -/
structure Params where
  account : String
  spender : String
  token : String
  chainId : JSNum
  allowance : ℤ
  periodInDays : JSNum
deriving DecidableEq

/-- The parameter-building step of `handleRequest` (lines 54-66):
`Number(chainId) || base.id`, `allowance ? BigInt(allowance) : 0n`,
`Number(periodInDays) || 0`. Only the `BigInt` coercion can throw. -/
def buildParams (s : ComponentState) : Except JsThrown Params :=
  let parsedChainId := jsOrNum (jsNumber s.chainId) (JSNum.val (baseId : ℚ))
  match (if s.allowance == "" then (Except.ok 0 : Except JsThrown ℤ)
         else jsBigIntStr s.allowance) with
  | Except.error e => Except.error e
  | Except.ok parsedAllowance =>
      let parsedPeriod := jsOrNum (jsNumber s.periodInDays) (JSNum.val 0)
      Except.ok
        { account := s.account
          spender := s.spender
          token := s.token
          chainId := parsedChainId
          allowance := parsedAllowance
          periodInDays := parsedPeriod }

/-- Outcome of the awaited `requestSpendPermission` promise: resolve with a
response of the response type `α` of the SDK, or reject with a thrown value. -/
inductive SdkOutcome (α : Type) where
  | resolve : α → SdkOutcome α
  | reject : JsThrown → SdkOutcome α

/-- The synchronous head of `handleRequest` (lines 49-51): `setLoading(true)`,
`setError(null)`, `setPermission(null)`. -/
def startRequest (s : ComponentState) : ComponentState :=
  { s with loading := true, error := none, permission := none }

/-- The success continuation (line 68 with the `finally` of line 73):
`setPermission(JSON.stringify(response, null, 2))`, then
`setLoading(false)`. `json` is the already-serialized response. -/
def finishResolve (json : String) (s : ComponentState) : ComponentState :=
  { s with permission := some json, loading := false }

/-- Message extraction of the `catch` block (line 70):
`err instanceof Error ? err.message : "Failed to request spend permission"`. -/
def errMessageOf : JsThrown → String
  | JsThrown.error m => m
  | JsThrown.nonError => "Failed to request spend permission"

/-- The `catch` block (lines 69-71 with the `finally` of line 73):
`setError(message)`, then `setLoading(false)`. -/
def finishReject (err : JsThrown) (s : ComponentState) : ComponentState :=
  { s with error := some (errMessageOf err), loading := false }

/-- One complete invocation of `handleRequest` (lines 48-75), given the
serializer `stringify` standing for `JSON.stringify(_, null, 2)` and the
outcome of the SDK promise. Returns the component state after the `finally`
block together with the list of `requestSpendPermission` calls made. When
parameter building throws, the SDK is never called and the exception reaches
the same `catch`. -/
def handleRequest {α : Type} (stringify : α → String) (s : ComponentState)
    (outcome : SdkOutcome α) : ComponentState × List Params :=
  let s1 := startRequest s
  match buildParams s1 with
  | Except.error e => (finishReject e s1, [])
  | Except.ok p =>
      match outcome with
      | SdkOutcome.resolve r => (finishResolve (stringify r) s1, [p])
      | SdkOutcome.reject err => (finishReject err s1, [p])

/-- The thrown value reaching the `catch` block when the SDK promise would
reject with `err`: the parameter-building exception if building throws,
otherwise `err` itself. -/
def caughtValue (s : ComponentState) (err : JsThrown) : JsThrown :=
  match buildParams (startRequest s) with
  | Except.ok _ => err
  | Except.error e => e

/-- The `disabled` attribute of the button (line 189):
`!isConnected || loading || !account` (a JS string is falsy iff empty). -/
def buttonDisabled (isConnected : Bool) (loading : Bool) (account : String) : Bool :=
  !isConnected || loading || account == ""

/-- The label of the button (line 190): `loading ? "Requesting..." :
isConnected ? "Request Spend Permission" : "Connect wallet to continue"`. -/
def buttonLabel (loading : Bool) (isConnected : Bool) : String :=
  if loading then "Requesting..."
  else if isConnected then "Request Spend Permission"
  else "Connect wallet to continue"

/-- The `useEffect` on `[address]` (lines 36-40): when the wagmi address is
truthy, `setAccount(address)`; otherwise no state change. -/
def applyAddressEffect (address : Option String) (s : ComponentState) :
    ComponentState :=
  match address with
  | some a => if a == "" then s else { s with account := a }
  | none => s

/-- The `useEffect` on `[connectedChainId]` (lines 42-46): when the wagmi
chain id is truthy, `setChainId(String(connectedChainId))`. -/
def applyChainEffect (connectedChainId : Nat) (s : ComponentState) :
    ComponentState :=
  if connectedChainId == 0 then s
  else { s with chainId := toString connectedChainId }

/-- One of the six controlled form fields, each with an `onChange` setter. -/
inductive Field where
  | account | spender | token | chainId | allowance | periodInDays

/-- The `onChange` handler of a form field: overwrite that field with the typed
value (the inputs are never disabled, so edits can happen at any time). -/
def setField : Field → String → ComponentState → ComponentState
  | Field.account, v, s => { s with account := v }
  | Field.spender, v, s => { s with spender := v }
  | Field.token, v, s => { s with token := v }
  | Field.chainId, v, s => { s with chainId := v }
  | Field.allowance, v, s => { s with allowance := v }
  | Field.periodInDays, v, s => { s with periodInDays := v }

/-- The component together with its environment: the wagmi `isConnected` flag, and
the list of `requestSpendPermission` calls currently in flight (awaited but
not yet settled). -/
structure AppState where
  comp : ComponentState
  isConnected : Bool
  inFlight : List Params

/-- The button can fire a click only while its `disabled` attribute is
false. -/
def ClickEnabled (s : AppState) : Prop :=
  buttonDisabled s.isConnected s.comp.loading s.comp.account = false

/-- The synchronous run of `handleRequest` up to the `await`: state resets,
parameter building; on success the SDK call joins the in-flight list, on a
parameter-building exception the `catch`/`finally` run with no SDK call. -/
def doClick (s : AppState) : AppState :=
  match buildParams (startRequest s.comp) with
  | Except.ok p =>
      { s with comp := startRequest s.comp, inFlight := s.inFlight ++ [p] }
  | Except.error e =>
      { s with comp := finishReject e (startRequest s.comp) }

/-- Events in the lifetime of the component: a click on the enabled button, the
settlement of an in-flight SDK promise (resolve with serialized response
`json`, or reject), a form edit, a wagmi connection change, and the two
`useEffect` synchronizations. -/
inductive Step : AppState → AppState → Prop
  | click (s : AppState) :
      ClickEnabled s → Step s (doClick s)
  | resolveStep (s : AppState) (json : String) (p : Params) (rest : List Params) :
      s.inFlight = p :: rest →
      Step s { s with comp := finishResolve json s.comp, inFlight := rest }
  | rejectStep (s : AppState) (err : JsThrown) (p : Params) (rest : List Params) :
      s.inFlight = p :: rest →
      Step s { s with comp := finishReject err s.comp, inFlight := rest }
  | edit (s : AppState) (f : Field) (v : String) :
      Step s { s with comp := setField f v s.comp }
  | setConn (s : AppState) (b : Bool) :
      Step s { s with isConnected := b }
  | addrEffect (s : AppState) (address : Option String) :
      Step s { s with comp := applyAddressEffect address s.comp }
  | chainEffect (s : AppState) (c : Nat) :
      Step s { s with comp := applyChainEffect c s.comp }

/-- The component state on mount (lines 25-34): `address ?? ""`, the two
default addresses, `String(connectedChainId || base.id)`, `"1000000"`,
`"30"`, null display states, not loading. -/
def initComponent (address : Option String) (connectedChainId : Nat) :
    ComponentState :=
  { account := address.getD ""
    spender := DEFAULT_SPENDER
    token := DEFAULT_TOKEN
    chainId := toString (if connectedChainId == 0 then baseId else connectedChainId)
    allowance := "1000000"
    periodInDays := "30"
    permission := none
    error := none
    loading := false }

/-- The app state on mount: freshly mounted component, given wagmi
connection status, no SDK call in flight. -/
def initState (address : Option String) (connectedChainId : Nat)
    (conn : Bool) : AppState :=
  { comp := initComponent address connectedChainId
    isConnected := conn
    inFlight := [] }

/-- States reachable from `init` by `Step` events. -/
inductive Reachable (init : AppState) : AppState → Prop
  | refl : Reachable init init
  | tail {s t : AppState} : Reachable init s → Step s t → Reachable init t

/-- The in-flight discipline: never more than one SDK call pending, and no
call pending whenever the `loading` flag is down. -/
def InFlightInv (s : AppState) : Prop :=
  s.inFlight.length ≤ 1 ∧ (s.comp.loading = false → s.inFlight = [])

/-- A concrete component state with the form filled in and `allowance` empty
(so parameter building takes every fallback and succeeds). -/
def exampleState : ComponentState :=
  { account := "0x1"
    spender := DEFAULT_SPENDER
    token := DEFAULT_TOKEN
    chainId := ""
    allowance := ""
    periodInDays := ""
    permission := none
    error := none
    loading := false }

/-- The parameters `buildParams` produces from `exampleState`. -/
def exampleParams : Params :=
  { account := "0x1"
    spender := DEFAULT_SPENDER
    token := DEFAULT_TOKEN
    chainId := JSNum.val (baseId : ℚ)
    allowance := 0
    periodInDays := JSNum.val 0 }

/-- A concrete app state with the wallet disconnected. -/
def exampleApp : AppState :=
  { comp := exampleState, isConnected := false, inFlight := [] }

theorem setField_loading (f : Field) (v : String) (s : ComponentState) :
    (setField f v s).loading = s.loading := by
  cases f <;> rfl

theorem applyAddressEffect_loading (address : Option String)
    (s : ComponentState) : (applyAddressEffect address s).loading = s.loading := by
  cases address with
  | none => rfl
  | some a =>
      simp only [applyAddressEffect]
      split <;> rfl

theorem applyChainEffect_loading (c : Nat) (s : ComponentState) :
    (applyChainEffect c s).loading = s.loading := by
  unfold applyChainEffect
  split <;> rfl

theorem step_preserves_inFlightInv {s t : AppState} (hs : Step s t)
    (h : InFlightInv s) : InFlightInv t := by
  cases hs with
  | click hc =>
      have hl : s.comp.loading = false := by
        unfold ClickEnabled buttonDisabled at hc
        cases hll : s.comp.loading
        · rfl
        · rw [hll] at hc; simp at hc
      have hflight : s.inFlight = [] := h.2 hl
      unfold InFlightInv doClick
      split
      · refine ⟨by simp [hflight], ?_⟩
        intro hl'
        simp [startRequest] at hl'
      · refine ⟨by rw [hflight]; simp, fun _ => hflight⟩
  | resolveStep json p rest hf =>
      have hrest : rest = [] := by
        have h1 := h.1
        rw [hf] at h1
        simp only [List.length_cons] at h1
        exact List.length_eq_zero.mp (by omega)
      exact ⟨by simp [hrest], fun _ => hrest⟩
  | rejectStep err p rest hf =>
      have hrest : rest = [] := by
        have h1 := h.1
        rw [hf] at h1
        simp only [List.length_cons] at h1
        exact List.length_eq_zero.mp (by omega)
      exact ⟨by simp [hrest], fun _ => hrest⟩
  | edit f v =>
      refine ⟨h.1, ?_⟩
      intro hl
      rw [setField_loading] at hl
      exact h.2 hl
  | setConn b => exact ⟨h.1, h.2⟩
  | addrEffect address =>
      refine ⟨h.1, ?_⟩
      intro hl
      rw [applyAddressEffect_loading] at hl
      exact h.2 hl
  | chainEffect c =>
      refine ⟨h.1, ?_⟩
      intro hl
      rw [applyChainEffect_loading] at hl
      exact h.2 hl

theorem reachable_inFlightInv (init : AppState) (hinit : InFlightInv init)
    {s : AppState} (h : Reachable init s) : InFlightInv s := by
  induction h with
  | refl => exact hinit
  | tail _ hs ih => exact step_preserves_inFlightInv hs ih

/-- C1: when the SDK promise resolves, `handleRequest` makes exactly one
`requestSpendPermission` call, sets the `permission` display state to the
`JSON.stringify(_, null, 2)` serialization of the response, and leaves the
`error` state null. -/
theorem claim_C1 {α : Type} (stringify : α → String) (s : ComponentState)
    (p : Params) (r : α) (hb : buildParams s = Except.ok p) :
    (handleRequest stringify s (SdkOutcome.resolve r)).2 = [p]
    ∧ (handleRequest stringify s (SdkOutcome.resolve r)).1.permission
        = some (stringify r)
    ∧ (handleRequest stringify s (SdkOutcome.resolve r)).1.error = none := by
  have hb' : buildParams (startRequest s) = Except.ok p := hb
  dsimp only [handleRequest]
  rw [hb']
  simp [finishResolve, startRequest]

theorem claim_C1_witness :
    (handleRequest id exampleState (SdkOutcome.resolve "resp")).2 = [exampleParams]
    ∧ (handleRequest id exampleState (SdkOutcome.resolve "resp")).1.permission
        = some (id "resp")
    ∧ (handleRequest id exampleState (SdkOutcome.resolve "resp")).1.error = none :=
  claim_C1 id exampleState exampleParams "resp" (by rfl)

/-- C2: when the promise rejects (and likewise when the `try` block throws
before the call), the thrown value is caught, the displayed message is
`err.message` for an `Error` and the fixed fallback string otherwise, the
`error` state is set to it, and the SDK is called at most once (no retry). -/
theorem claim_C2 {α : Type} (stringify : α → String) (s : ComponentState)
    (err : JsThrown) (m : String) :
    (handleRequest stringify s (SdkOutcome.reject err)).1.error
      = some (errMessageOf (caughtValue s err))
    ∧ errMessageOf (JsThrown.error m) = m
    ∧ errMessageOf JsThrown.nonError = "Failed to request spend permission"
    ∧ (handleRequest stringify s (SdkOutcome.reject err)).2.length ≤ 1 := by
  dsimp only [handleRequest, caughtValue]
  cases hb : buildParams (startRequest s) <;>
    simp [finishReject, errMessageOf]

/-- C3 counterexample: parameter building is not exception-free for every
string: with `allowance = "abc"` the `BigInt` coercion throws a
`SyntaxError` rather than falling back. -/
theorem claim_C3_counterexample :
    buildParams { exampleState with allowance := "abc" }
      = Except.error (JsThrown.error "Cannot convert abc to a BigInt") := by
  rfl

/-- C3 (amended): `Number` parsing of `chainId` and `periodInDays` never
throws and takes the fallbacks (`base.id` = 8453, resp. `0`) exactly when
the parse is `NaN` or `0`; `allowance` falls back to `0n` only when the
string is empty, and on a non-empty string is handed to `BigInt`, which may
throw (the exception lands in the surrounding `catch`). -/
theorem claim_C3_amended (s : ComponentState) (p : Params)
    (hp : buildParams s = Except.ok p) :
    p.chainId = (if jsFalsy (jsNumber s.chainId) then JSNum.val (baseId : ℚ)
                 else jsNumber s.chainId)
    ∧ p.periodInDays = (if jsFalsy (jsNumber s.periodInDays) then JSNum.val 0
                        else jsNumber s.periodInDays)
    ∧ (s.allowance = "" → p.allowance = 0)
    ∧ (s.allowance ≠ "" → jsBigIntStr s.allowance = Except.ok p.allowance) := by
  unfold buildParams at hp
  by_cases ha : s.allowance = ""
  · simp [ha] at hp
    subst hp
    refine ⟨rfl, rfl, fun _ => rfl, fun hne => absurd ha hne⟩
  · have hbeq : (s.allowance == "") = false := by
      simp [ha]
    rw [hbeq] at hp
    simp only [Bool.false_eq_true, if_false] at hp
    cases hb : jsBigIntStr s.allowance with
    | error e => rw [hb] at hp; exact absurd hp (by simp)
    | ok n =>
        rw [hb] at hp
        simp only [Except.ok.injEq] at hp
        subst hp
        exact ⟨rfl, rfl, fun h => absurd h ha, fun _ => by rfl⟩

theorem claim_C3_witness :
    exampleParams.chainId
      = (if jsFalsy (jsNumber exampleState.chainId) then JSNum.val (baseId : ℚ)
         else jsNumber exampleState.chainId)
    ∧ exampleParams.periodInDays
      = (if jsFalsy (jsNumber exampleState.periodInDays) then JSNum.val 0
         else jsNumber exampleState.periodInDays)
    ∧ (exampleState.allowance = "" → exampleParams.allowance = 0)
    ∧ (exampleState.allowance ≠ ""
        → jsBigIntStr exampleState.allowance = Except.ok exampleParams.allowance) :=
  claim_C3_amended exampleState exampleParams (by rfl)

/-- C4: in every reachable state of the event system of the component, at most
one `requestSpendPermission` call is in flight (the loading flag disables
the button for the whole life of a call). -/
theorem claim_C4 (address : Option String) (connectedChainId : Nat)
    (conn : Bool) (s : AppState)
    (h : Reachable (initState address connectedChainId conn) s) :
    s.inFlight.length ≤ 1 :=
  (reachable_inFlightInv _ ⟨by simp [initState], fun _ => rfl⟩ h).1

theorem claim_C4_witness :
    (initState none 0 false).inFlight.length ≤ 1 :=
  claim_C4 none 0 false (initState none 0 false) Reachable.refl

/-- C5: after any completed `handleRequest` invocation, at most one of the
`permission` and `error` display states is non-null. -/
theorem claim_C5 {α : Type} (stringify : α → String) (s : ComponentState)
    (o : SdkOutcome α) :
    (handleRequest stringify s o).1.permission = none
    ∨ (handleRequest stringify s o).1.error = none := by
  dsimp only [handleRequest]
  cases hb : buildParams (startRequest s) <;> cases o <;>
    simp [finishResolve, finishReject, startRequest]

/-- C6 counterexample: with the wallet disconnected but a request loading,
the label of the button is "Requesting...", not "Connect wallet to continue", so
the label clause of the claim fails (the disabled clause still holds). -/
theorem claim_C6_counterexample :
    buttonLabel true false ≠ "Connect wallet to continue" := by
  decide

/-- C6 (amended): whenever `isConnected` is false the button is disabled
(so no click can fire and `handleRequest` cannot be triggered through it),
and its label reads "Connect wallet to continue" when additionally no
request is loading (while loading it reads "Requesting..."). -/
theorem claim_C6_amended (l : Bool) (a : String) (s : AppState)
    (h : s.isConnected = false) :
    buttonDisabled false l a = true
    ∧ buttonLabel false false = "Connect wallet to continue"
    ∧ ¬ ClickEnabled s := by
  refine ⟨by simp [buttonDisabled], rfl, ?_⟩
  intro hc
  unfold ClickEnabled buttonDisabled at hc
  rw [h] at hc
  simp at hc

theorem claim_C6_witness :
    buttonDisabled false true "0x1" = true
    ∧ buttonLabel false false = "Connect wallet to continue"
    ∧ ¬ ClickEnabled exampleApp :=
  claim_C6_amended true "0x1" exampleApp rfl

/-- C7: every `handleRequest` invocation ends with `loading = false`
(the `finally` block), on the success path, the rejection path, and the
parameter-building exception path alike. -/
theorem claim_C7 {α : Type} (stringify : α → String) (s : ComponentState)
    (o : SdkOutcome α) :
    (handleRequest stringify s o).1.loading = false := by
  dsimp only [handleRequest]
  cases hb : buildParams (startRequest s) <;> cases o <;>
    simp [finishResolve, finishReject]

/-- C8: when the wagmi address is defined (truthy), the account field is
overwritten with it — discarding any manual edit — while spender, token,
allowance, periodInDays and chainId are untouched by that effect; and
whenever the connected chain id is truthy, the chainId field is overwritten
with its decimal string. -/
theorem claim_C8 (a : String) (ha : a ≠ "") (c : Nat) (hc : c ≠ 0)
    (s : ComponentState) :
    (applyAddressEffect (some a) s).account = a
    ∧ (applyAddressEffect (some a) s).spender = s.spender
    ∧ (applyAddressEffect (some a) s).token = s.token
    ∧ (applyAddressEffect (some a) s).allowance = s.allowance
    ∧ (applyAddressEffect (some a) s).periodInDays = s.periodInDays
    ∧ (applyAddressEffect (some a) s).chainId = s.chainId
    ∧ (applyChainEffect c s).chainId = toString c
    ∧ (applyChainEffect c s).account = s.account := by
  simp [applyAddressEffect, applyChainEffect, ha, hc]

theorem claim_C8_witness :
    (applyAddressEffect (some "0xA") exampleState).account = "0xA"
    ∧ (applyAddressEffect (some "0xA") exampleState).spender = exampleState.spender
    ∧ (applyAddressEffect (some "0xA") exampleState).token = exampleState.token
    ∧ (applyAddressEffect (some "0xA") exampleState).allowance = exampleState.allowance
    ∧ (applyAddressEffect (some "0xA") exampleState).periodInDays
        = exampleState.periodInDays
    ∧ (applyAddressEffect (some "0xA") exampleState).chainId = exampleState.chainId
    ∧ (applyChainEffect 8453 exampleState).chainId = toString 8453
    ∧ (applyChainEffect 8453 exampleState).account = exampleState.account :=
  claim_C8 "0xA" (by decide) 8453 (by decide) exampleState

/-- C9: an empty account field keeps the button disabled even when the
wallet is connected and nothing is loading (the disabled condition is
`!isConnected || loading || !account`), while a connected, idle state with a
non-empty account enables it. -/
theorem claim_C9 (l : Bool) (s : AppState) (h : s.comp.account = "") :
    buttonDisabled true l "" = true
    ∧ ¬ ClickEnabled s
    ∧ buttonDisabled true false "0x1" = false := by
  refine ⟨by simp [buttonDisabled], ?_, by decide⟩
  intro hc
  unfold ClickEnabled buttonDisabled at hc
  rw [h] at hc
  simp at hc

theorem claim_C9_witness :
    buttonDisabled true true "" = true
    ∧ ¬ ClickEnabled (initState none 0 true)
    ∧ buttonDisabled true false "0x1" = false :=
  claim_C9 true (initState none 0 true) rfl

end SpendPermissionDemo
